import Mathlib

/-!
# UPSBET front-end script: selection controller, simulator and renderer

A shallow embedding of `src/app/static/js/script.js`.

* The two `<select>` widgets are a pair of strings (`Selection`); the three
  event handlers are functions on that pair.
* A finite JavaScript number is a rational, next to `NaN` and the two
  infinities.  The product of `toPct` is rounded to binary64, since the
  percentage shown depends on that rounding; the sums, quotients and the
  `randomInt` product of the simulator are kept exact, and signed zero is
  not modelled.
* `Math.random()` is a stream of draws `Nat → ℚ` read through a cursor, so a
  function that draws returns the advanced cursor with its result.
* A thrown exception is a `threw` flag next to the state reached so far,
  because DOM writes made before a throw stay in place.
-/

namespace Upsbet

/-! ## Team registry (script.js lines 4-21, 89-91) -/

/-- The name-to-code table, in source order. -/
def equipos_dict : List (String × Nat) :=
  [("Barcelona SC", 0), ("El Nacional", 2), ("Emelec", 4), ("LDU de Quito", 5),
   ("Mushuc Runa SC", 6), ("Independiente del Valle", 7),
   ("CD Tecnico Universitario", 8), ("Delfin", 9), ("Deportivo Cuenca", 10),
   ("Aucas", 12), ("Universidad Catolica", 13), ("CSD Macara", 14),
   ("Orense SC", 15), ("Manta FC", 17), ("Libertad", 20), ("Vinotinto", 22)]

/-- The registry names: `Object.keys(equipos_dict)`.  No key is an integer
index, so the keys come in insertion order. -/
def TEAM_NAMES : List String := equipos_dict.map Prod.fst

def DEFAULT_HOME : String := "Emelec"

def DEFAULT_AWAY : String := "Barcelona SC"

/-- The lookup `equipos_dict[name]`; `none` stands for `undefined`. -/
def teamCode (name : String) : Option Nat := equipos_dict.lookup name

/-- The search behind `Array.prototype.indexOf`, counting from `i`: the
position of the first element equal to `x`, or `-1`. -/
def indexOfFrom (x : String) : List String → Int → Int
  | [], _ => -1
  | y :: ys, i => if y = x then i else indexOfFrom x ys (i + 1)

/-- The call `xs.indexOf(x)`. -/
def indexOf (xs : List String) (x : String) : Int := indexOfFrom x xs 0

/-- The indexed read `xs[i]` for an integer `i`; `none` stands for `undefined`. -/
def arrayGet (xs : List String) (i : Int) : Option String :=
  if i < 0 then none else xs.get? i.toNat

/-- The remainder operator `%` on integers: the result has the sign of the dividend. -/
def jsRem (a b : Int) : Int := Int.tmod a b

/-- Assignment to `select.value` on a select whose options are `TEAM_NAMES`:
the option with that value becomes selected; when no option matches
(`undefined` included) nothing is selected and the value reads `""`. -/
def setSelectValue (v : Option String) : String :=
  match v with
  | some s => if s ∈ TEAM_NAMES then s else ""
  | none => ""

/-! ## Selection controller (script.js lines 94-105, 129-149) -/

/-- The values of `homeSel` and `awaySel`. -/
structure Selection where
  homeSel : String
  awaySel : String
  deriving DecidableEq, Repr

/-- The selection left by `populateSelects`. -/
def populateSelects : Selection :=
  { homeSel := setSelectValue (some DEFAULT_HOME)
    awaySel := setSelectValue (some DEFAULT_AWAY) }

/-- The user picks option `n` in the home select (the browser stores it in
`homeSel.value`), then the `change` listener of lines 129-135 runs. -/
def onHomeChanged (n : String) (s : Selection) : Selection :=
  let s1 : Selection := { s with homeSel := n }
  if s1.homeSel = s1.awaySel then
    let idx := indexOf TEAM_NAMES s1.homeSel
    { s1 with awaySel :=
        setSelectValue (arrayGet TEAM_NAMES (jsRem (idx + 1) TEAM_NAMES.length)) }
  else s1

/-- The user picks option `n` in the away select, then the `change` listener
of lines 136-142 runs. -/
def onAwayChanged (n : String) (s : Selection) : Selection :=
  let s1 : Selection := { s with awaySel := n }
  if s1.awaySel = s1.homeSel then
    let idx := indexOf TEAM_NAMES s1.awaySel
    { s1 with homeSel :=
        setSelectValue (arrayGet TEAM_NAMES (jsRem (idx + 1) TEAM_NAMES.length)) }
  else s1

/-- The `click` listener of the swap button (lines 144-149). -/
def swap (s : Selection) : Selection :=
  let tmp := s.homeSel
  let s1 : Selection := { s with homeSel := setSelectValue (some s.awaySel) }
  { s1 with awaySel := setSelectValue (some tmp) }

/-- One user action on the selection widgets. -/
inductive SelOp where
  | home (n : String)
  | away (n : String)
  | swap
  deriving DecidableEq, Repr

/-- The option a user action picks, if it picks one. -/
def SelOp.picked : SelOp → Option String
  | .home n => some n
  | .away n => some n
  | .swap => none

/-- An action is possible in the page when the option it picks is one of the
registry names the selects were filled with. -/
def SelOp.Offered (op : SelOp) : Prop := ∀ n, op.picked = some n → n ∈ TEAM_NAMES

/-- Runs one action. -/
def SelOp.run : SelOp → Selection → Selection
  | .home n, s => onHomeChanged n s
  | .away n, s => onAwayChanged n s
  | .swap, s => Upsbet.swap s

/-- Runs a sequence of actions, first to last. -/
def runOps (ops : List SelOp) (s : Selection) : Selection :=
  ops.foldl (fun acc op => op.run acc) s

/-- The registry entry that follows `n` in registry order, wrapping from the
last entry to the first: position arithmetic on natural numbers, for names
that occur in the registry. -/
def nextInRegistry (n : String) : Option String :=
  TEAM_NAMES.get? ((TEAM_NAMES.indexOf n + 1) % 16)

/-- The statement that both selections are registry names and differ. -/
def Selection.Valid (s : Selection) : Prop :=
  s.homeSel ∈ TEAM_NAMES ∧ s.awaySel ∈ TEAM_NAMES ∧ s.homeSel ≠ s.awaySel

/-- The value the handlers store into the other select on a collision. -/
def rolled (n : String) : String :=
  setSelectValue (arrayGet TEAM_NAMES (jsRem (indexOf TEAM_NAMES n + 1) TEAM_NAMES.length))

/-! ## Numbers -/

/-- A JavaScript number: a finite value is a rational, next to `NaN` and the
two infinities. -/
inductive JSNum where
  | nan
  | fin (q : ℚ)
  | posInf
  | negInf
  deriving DecidableEq

namespace JSNum

/-- The infinity of the sign of `s`, for `s ≠ 0`. -/
def infOfSign (s : ℚ) : JSNum := if 0 < s then posInf else negInf

/-- Rounding to the nearest integer, a tie going to the even neighbour. -/
def roundHalfEven (x : ℚ) : ℤ :=
  if x - ⌊x⌋ < 1 / 2 then ⌊x⌋
  else if 1 / 2 < x - ⌊x⌋ then ⌊x⌋ + 1
  else if ⌊x⌋ % 2 = 0 then ⌊x⌋ else ⌊x⌋ + 1

/-- The binary exponent of the binade of `q` in binary64: the `e` with
`2 ^ e ≤ |q| < 2 ^ (e + 1)`, and `-1022` throughout the subnormal range. -/
def binadeExp (q : ℚ) : ℤ := max (Int.log 2 |q|) (-1022)

/-- The spacing of binary64 values around `q`: 53 significant bits. -/
def ulp (q : ℚ) : ℚ := (2 : ℚ) ^ (binadeExp q - 52)

/-- The binary64 value of an exact result `q` (IEEE 754 round to nearest, ties
to even): the multiple of `ulp q` nearest to `q`, or an infinity when that
multiple reaches `2 ^ 1024`. -/
def binary64 (q : ℚ) : JSNum :=
  if (2 : ℚ) ^ (1024 : ℕ) ≤ |(roundHalfEven (q / ulp q) : ℚ) * ulp q| then infOfSign q
  else fin ((roundHalfEven (q / ulp q) : ℚ) * ulp q)

/-- Addition `a + b`, the finite sum kept exact. -/
def add : JSNum → JSNum → JSNum
  | fin a, fin b => fin (a + b)
  | nan, _ => nan
  | _, nan => nan
  | posInf, negInf => nan
  | negInf, posInf => nan
  | posInf, _ => posInf
  | _, posInf => posInf
  | negInf, _ => negInf
  | _, negInf => negInf

/-- Multiplication `a * b`: the finite product is rounded to binary64. -/
def mul : JSNum → JSNum → JSNum
  | fin a, fin b => binary64 (a * b)
  | nan, _ => nan
  | _, nan => nan
  | fin a, posInf => if a = 0 then nan else infOfSign a
  | fin a, negInf => if a = 0 then nan else infOfSign (-a)
  | posInf, fin b => if b = 0 then nan else infOfSign b
  | negInf, fin b => if b = 0 then nan else infOfSign (-b)
  | posInf, posInf => posInf
  | negInf, negInf => posInf
  | posInf, negInf => negInf
  | negInf, posInf => negInf

/-- Division `a / b`, the finite quotient kept exact; a zero divisor counts
as `+0`. -/
def div : JSNum → JSNum → JSNum
  | fin a, fin b => if b = 0 then (if a = 0 then nan else infOfSign a) else fin (a / b)
  | nan, _ => nan
  | _, nan => nan
  | fin _, _ => fin 0
  | posInf, fin b => if 0 ≤ b then posInf else negInf
  | negInf, fin b => if 0 ≤ b then negInf else posInf
  | _, _ => nan

/-- The larger of two numbers as `Math.max` takes it: `NaN` if either is `NaN`. -/
def max2 : JSNum → JSNum → JSNum
  | fin a, fin b => fin (max a b)
  | nan, _ => nan
  | _, nan => nan
  | posInf, _ => posInf
  | _, posInf => posInf
  | negInf, x => x
  | x, negInf => x

/-- Strict equality `a === b` on numbers: `NaN` equals nothing. -/
def strictEq (a b : JSNum) : Bool :=
  match a, b with
  | nan, _ => false
  | _, nan => false
  | x, y => decide (x = y)

/-- The expression `x || 0` on a number: `NaN` and zero are falsy. -/
def orZero : JSNum → JSNum
  | nan => fin 0
  | fin q => if q = 0 then fin 0 else fin q
  | x => x

end JSNum

/-- The call `Math.max(a, b, c)`. -/
def mathMax3 (a b c : JSNum) : JSNum := JSNum.max2 (JSNum.max2 a b) c

/-- The range of `Math.round`: an integer, `NaN` or an infinity. -/
inductive Rounded where
  | nan
  | int (z : ℤ)
  | posInf
  | negInf
  deriving DecidableEq

/-- The call `Math.round(x)` on a number: the nearest integer, a tie going up. -/
def mathRound : JSNum → Rounded
  | .nan => .nan
  | .fin q => .int ⌊q + 1 / 2⌋
  | .posInf => .posInf
  | .negInf => .negInf

/-- The string a rounded number turns into in a template literal or in
`textContent` (positional decimal digits, as JavaScript prints integers
below `1e21`). -/
def Rounded.toString : Rounded → String
  | .nan => "NaN"
  | .int z => ToString.toString z
  | .posInf => "Infinity"
  | .negInf => "-Infinity"

/-! ## Values -/

/-- A JavaScript value as the script meets it: `undefined`, or what
`JSON.parse` and object literals build. -/
inductive JSVal where
  | undefined
  | null
  | bool (b : Bool)
  | num (n : JSNum)
  | str (s : String)
  | arr (items : List JSVal)
  | obj (fields : List (String × JSVal))

namespace JSVal

/-- Whether the value is `null` or `undefined`. -/
def isNullish : JSVal → Bool
  | undefined => true
  | null => true
  | _ => false

/-- Whether the value is an array or an object. -/
def isObject : JSVal → Bool
  | arr _ => true
  | obj _ => true
  | _ => false

/-- The property read `v.k` for the property names the script reads
(`home_win`, `draw`, `away_win`, `score`, `corners`, `cards`, `home`, `away`):
`none` is the `TypeError` raised on `null` and `undefined`; an object, given
as the list of its own properties, yields the entry with that key or
`undefined`; any other value has no such property. -/
def getProp (v : JSVal) (k : String) : Option JSVal :=
  match v with
  | undefined => none
  | null => none
  | obj fields => some ((fields.lookup k).getD undefined)
  | _ => some undefined

/-- The optional read `v?.k`: `undefined` on `null` and `undefined`. -/
def optProp (v : JSVal) (k : String) : JSVal :=
  match v.getProp k with
  | some w => w
  | none => undefined

/-- The expression `v ?? d`. -/
def orElse (v d : JSVal) : JSVal := if v.isNullish then d else v

end JSVal

/-- The parts of number coercion that belong to the language runtime and are
left open: the numeric reading of a string, and the coercion of an array,
which joins the strings of its items and can raise a `TypeError` (`none`). -/
structure Runtime where
  stringToNumber : String → JSNum
  arrayToNumber : List JSVal → Option JSNum

/-- The coercion `Number(v)`, also applied by `Math.round` to its argument;
`none` is a raised `TypeError`.  An object built by `JSON.parse` or by an
object literal of data is converted by `valueOf`, then `toString`: an own
property of either name is data, not callable, and is skipped; the inherited
`valueOf` returns the object itself, which is no primitive; the inherited
`toString` returns `"[object Object]"`, which reads as `NaN`.  So an object
with an own `toString` property leaves no conversion and raises. -/
def toNumber (rt : Runtime) : JSVal → Option JSNum
  | .undefined => some .nan
  | .null => some (.fin 0)
  | .bool b => some (.fin (if b then 1 else 0))
  | .num n => some n
  | .str s => some (rt.stringToNumber s)
  | .arr items => rt.arrayToNumber items
  | .obj fields => if (fields.lookup "toString").isSome then none else some .nan

/-- The call `Math.round(v)` on a value. -/
def roundValue (rt : Runtime) (v : JSVal) : Option Rounded :=
  (toNumber rt v).map mathRound

/-! ## Random integers and the simulator (script.js lines 236-263) -/

/-- The function `randomInt(min, max)`, given the draw `r` of its `Math.random()` call. -/
def randomInt (min max : ℤ) (r : ℚ) : ℤ := ⌊r * ((max - min + 1 : ℤ) : ℚ)⌋ + min

/-- A home/away pair of integers. -/
structure Sides where
  home : ℤ
  away : ℤ
  deriving DecidableEq

/-- The object `mockPrediction` returns. -/
structure MockData where
  home_win : JSNum
  draw : JSNum
  away_win : JSNum
  score : Sides
  corners : Sides
  cards : Sides
  deriving DecidableEq

/-- An integer as a JavaScript value. -/
def intVal (z : ℤ) : JSVal := .num (.fin z)

/-- A home/away pair as the object literal of its two fields. -/
def Sides.toJSVal (p : Sides) : JSVal :=
  .obj [("home", intVal p.home), ("away", intVal p.away)]

/-- The object literal of lines 250-257. -/
def MockData.toJSVal (m : MockData) : JSVal :=
  .obj [("home_win", .num m.home_win), ("draw", .num m.draw), ("away_win", .num m.away_win),
        ("score", m.score.toJSVal), ("corners", m.corners.toJSVal), ("cards", m.cards.toJSVal)]

/-- The function `mockPrediction()`, reading its draws from `rnd` at cursor `k`
on; returns the object and the advanced cursor.  The literal `0.4` is the
rational `2/5`. -/
def mockPrediction (rnd : Nat → ℚ) (k : Nat) : MockData × Nat :=
  let a0 := JSNum.fin (rnd k)
  let b0 := JSNum.fin (rnd (k + 1))
  let c0 := JSNum.fin (rnd (k + 2))
  let sum := (a0.add b0).add c0
  let a := a0.div sum
  let b := b0.div sum
  let c := c0.div sum
  let max := mathMax3 a b c
  let st0 : Sides × Nat := (⟨1, 1⟩, k + 3)
  let st1 : Sides × Nat :=
    if max.strictEq a then (⟨2, if rnd st0.2 < 2 / 5 then 0 else 1⟩, st0.2 + 1) else st0
  let st2 : Sides × Nat := if max.strictEq b then (⟨1, 1⟩, st1.2) else st1
  let st3 : Sides × Nat :=
    if max.strictEq c then (⟨if rnd st2.2 < 2 / 5 then 0 else 1, 2⟩, st2.2 + 1) else st2
  let k3 := st3.2
  let corners : Sides := ⟨randomInt 3 10 (rnd k3), randomInt 2 9 (rnd (k3 + 1))⟩
  let cards : Sides := ⟨randomInt 1 5 (rnd (k3 + 2)), randomInt 1 5 (rnd (k3 + 3))⟩
  ({ home_win := a, draw := b, away_win := c, score := st3.1, corners := corners, cards := cards },
   k3 + 4)

/-! ## Display widgets and the renderer (script.js lines 190-231) -/

/-- The page state the prediction flow writes, each field holding what the
script last assigned: the `style.width` of the three bars, the `textContent`
of the percentage labels, score, corners and cards, whether the notice
carries the class `hide`, its text, and the trigger button.  The page is
taken to contain every element the script looks up. -/
structure Dom where
  barHome : String
  barDraw : String
  barAway : String
  pctHome : String
  pctDraw : String
  pctAway : String
  score : String
  cornersHome : String
  cornersAway : String
  cardsHome : String
  cardsAway : String
  noticeHidden : Bool
  noticeText : String
  btnDisabled : Bool
  btnText : String
  deriving DecidableEq

/-- Where a run of page code ends: the page, the cursor into the random
stream, and whether an exception left the code early. -/
structure Run where
  dom : Dom
  cursor : Nat
  threw : Bool
  deriving DecidableEq

/-- The function `setLoading(on)`. -/
def setLoading (isOn : Bool) (d : Dom) : Dom :=
  { d with btnDisabled := isOn, btnText := if isOn then "Calculando…" else "Predecir" }

/-- The function `showNotice(msg)`. -/
def showNotice (msg : String) (d : Dom) : Dom :=
  { d with noticeText := msg, noticeHidden := false }

/-- The local function `toPct` of `renderResults`. -/
def toPct (rt : Runtime) (n : JSVal) : Option Rounded :=
  (toNumber rt n).map fun x => mathRound (x.orZero.mul (.fin 100))

/-- The template literal of a percentage. -/
def pctText (p : Rounded) : String := p.toString ++ "%"

/-- The template literal of the score. -/
def scoreText (sH sA : Rounded) : String := sH.toString ++ " - " ++ sA.toString

/-- The expression `v ?? randomInt(min, max)`: the random integer is drawn,
and the cursor advanced, only when `v` is nullish. -/
def orRandomInt (v : JSVal) (min max : ℤ) (rnd : Nat → ℚ) (k : Nat) : JSVal × Nat :=
  if v.isNullish then (intVal (randomInt min max (rnd k)), k + 1) else (v, k)

/-- Lines 203-205: the three percentages, or `none` on a throw. -/
def renderPcts (rt : Runtime) (res : JSVal) : Option (Rounded × Rounded × Rounded) :=
  (res.getProp "home_win").bind fun vH => (toPct rt vH).bind fun pH =>
  (res.getProp "draw").bind fun vD => (toPct rt vD).bind fun pD =>
  (res.getProp "away_win").bind fun vA => (toPct rt vA).bind fun pA =>
  some (pH, pD, pA)

/-- Lines 216-217: the two score sides, or `none` on a throw. -/
def renderScore (rt : Runtime) (res : JSVal) : Option (Rounded × Rounded) :=
  match roundValue rt (((res.optProp "score").optProp "home").orElse (intVal 1)),
        roundValue rt (((res.optProp "score").optProp "away").orElse (intVal 1)) with
  | some sH, some sA => some (sH, sA)
  | _, _ => none

/-- Two lines of the shape `Math.round(res?.f?.home ?? randomInt(min, max))`,
`Math.round(res?.f?.away ?? randomInt(min, max))` (lines 221-222 and 227-228):
the two rounded values and the cursor, or the cursor alone on a throw. -/
def renderSides (rt : Runtime) (rnd : Nat → ℚ) (res : JSVal) (f : String) (min max : ℤ)
    (k : Nat) : Option (Rounded × Rounded) × Nat :=
  let h := orRandomInt ((res.optProp f).optProp "home") min max rnd k
  match roundValue rt h.1 with
  | none => (none, h.2)
  | some vH =>
    let a := orRandomInt ((res.optProp f).optProp "away") min max rnd h.2
    match roundValue rt a.1 with
    | none => (none, a.2)
    | some vA => (some (vH, vA), a.2)

/-- The function `renderResults(res)`, run on page `d` with the random
cursor at `k`. -/
def renderResults (rt : Runtime) (rnd : Nat → ℚ) (res : JSVal) (k : Nat) (d : Dom) : Run :=
  match renderPcts rt res with
  | none => { dom := d, cursor := k, threw := true }
  | some (pH, pD, pA) =>
    let d1 : Dom := { d with
      barHome := pctText pH, barDraw := pctText pD, barAway := pctText pA,
      pctHome := pctText pH, pctDraw := pctText pD, pctAway := pctText pA }
    match renderScore rt res with
    | none => { dom := d1, cursor := k, threw := true }
    | some (sH, sA) =>
      let d2 : Dom := { d1 with score := scoreText sH sA }
      match renderSides rt rnd res "corners" 2 9 k with
      | (none, k1) => { dom := d2, cursor := k1, threw := true }
      | (some (cH, cA), k1) =>
        let d3 : Dom := { d2 with cornersHome := cH.toString, cornersAway := cA.toString }
        match renderSides rt rnd res "cards" 1 5 k1 with
        | (none, k2) => { dom := d3, cursor := k2, threw := true }
        | (some (yH, yA), k2) =>
          { dom := { d3 with cardsHome := yH.toString, cardsAway := yA.toString },
            cursor := k2, threw := false }

/-! ## Prediction client (script.js lines 156-188) -/

/-- The request body of lines 160-165; a code of `none` is `undefined`. -/
structure Payload where
  home_name : String
  away_name : String
  home_code : Option Nat
  away_code : Option Nat
  deriving DecidableEq

/-- What `res.json()` does with the response body. -/
inductive Body where
  | malformed
  | parsed (v : JSVal)

/-- How the `fetch` of lines 169-173 ends. -/
inductive NetOutcome where
  | transportFailure
  | response (status : Nat) (body : Body)

/-- The flag `res.ok`: a status from 200 to 299. -/
def NetOutcome.statusOk (status : Nat) : Bool := decide (200 ≤ status ∧ status ≤ 299)

/-- The outcomes that send `predict` to its inner `catch`: a transport
failure, a status outside 200-299, a body that does not parse. -/
def NetOutcome.isFailure : NetOutcome → Bool
  | .transportFailure => true
  | .response status body =>
    if NetOutcome.statusOk status then
      match body with
      | .malformed => true
      | .parsed _ => false
    else true

/-- The payload built from the selection. -/
def buildPayload (sel : Selection) : Payload :=
  { home_name := sel.homeSel, away_name := sel.awaySel,
    home_code := teamCode sel.homeSel, away_code := teamCode sel.awaySel }

/-- Lines 167-179: the data handed to the renderer and the random cursor. -/
def fetchData (net : Payload → NetOutcome) (rnd : Nat → ℚ) (sel : Selection) (k : Nat) :
    JSVal × Nat :=
  match net (buildPayload sel) with
  | .transportFailure => ((mockPrediction rnd k).1.toJSVal, (mockPrediction rnd k).2)
  | .response status body =>
    if NetOutcome.statusOk status then
      match body with
      | .parsed v => (v, k)
      | .malformed => ((mockPrediction rnd k).1.toJSVal, (mockPrediction rnd k).2)
    else ((mockPrediction rnd k).1.toJSVal, (mockPrediction rnd k).2)

/-- The function `predict()`, run to completion on page `d`: `net` is the
answer of the endpoint to a payload. -/
def predict (rt : Runtime) (net : Payload → NetOutcome) (rnd : Nat → ℚ) (sel : Selection)
    (k : Nat) (d : Dom) : Run :=
  let d1 := setLoading true d
  let d2 : Dom := { d1 with noticeHidden := true }
  let data := fetchData net rnd sel k
  let r := renderResults rt rnd data.1 data.2 d2
  let d3 := if r.threw then showNotice "Ocurrió un error inesperado. Revisa la consola." r.dom
            else r.dom
  { dom := setLoading false d3, cursor := r.cursor, threw := false }

/-! ## Vocabulary of the statements -/

/-- The page after the renderer has written a full set of values. -/
def writeAll (d : Dom) (pH pD pA sH sA cH cA yH yA : Rounded) : Dom :=
  { d with
    barHome := pctText pH, barDraw := pctText pD, barAway := pctText pA,
    pctHome := pctText pH, pctDraw := pctText pD, pctAway := pctText pA,
    score := scoreText sH sA,
    cornersHome := cH.toString, cornersAway := cA.toString,
    cardsHome := yH.toString, cardsAway := yA.toString }

/-- A field `parent.field` of a result object is missing when the parent is
absent, or the parent is an object that lacks the field. -/
def Missing (fs : List (String × JSVal)) (parent field : String) : Prop :=
  fs.lookup parent = none ∨
  ∃ gs, fs.lookup parent = some (JSVal.obj gs) ∧ gs.lookup field = none

/-- A result whose nine leaf fields, where present, are JSON primitives
(numbers, strings, booleans or `null`), not arrays or objects. -/
def PrimitiveLeaves (res : JSVal) : Prop :=
  (res.optProp "home_win").isObject = false ∧
  (res.optProp "draw").isObject = false ∧
  (res.optProp "away_win").isObject = false ∧
  ∀ p ∈ ["score", "corners", "cards"], ∀ f ∈ ["home", "away"],
    ((res.optProp p).optProp f).isObject = false

/-- The local function `toPct` on a number. -/
def pctOf (n : JSNum) : Rounded := mathRound (n.orZero.mul (.fin 100))

/-- A runtime instance for the examples: every string reads as `NaN` and
every array coercion raises. -/
def sampleRuntime : Runtime :=
  { stringToNumber := fun _ => .nan, arrayToNumber := fun _ => none }

/-- A page instance for the examples: empty widgets, a visible notice, the
trigger enabled. -/
def samplePage : Dom :=
  { barHome := "", barDraw := "", barAway := "", pctHome := "", pctDraw := "", pctAway := "",
    score := "", cornersHome := "", cornersAway := "", cardsHome := "", cardsAway := "",
    noticeHidden := false, noticeText := "", btnDisabled := false, btnText := "Predecir" }

/-- A result object for the examples, the parsed body
`{"home_win":0.5,"draw":0.25,"away_win":0.25,"corners":{"away":{"valueOf":1,"toString":1}}}`:
it has no `score`, no `cards` and no `corners.home`, and its `corners.away` is
an object with own `valueOf` and `toString` properties. -/
def uncoercibleCornerResult : List (String × JSVal) :=
  [("home_win", .num (.fin (1 / 2))), ("draw", .num (.fin (1 / 4))),
   ("away_win", .num (.fin (1 / 4))),
   ("corners", .obj [("away", .obj [("valueOf", intVal 1), ("toString", intVal 1)])])]

/-- Every draw of the stream lies in `[0, 1)`, as `Math.random()` promises. -/
def UnitDraws (rnd : Nat → ℚ) : Prop := ∀ i, 0 ≤ rnd i ∧ rnd i < 1

/-! ## Selection controller: lemmas -/

theorem mem_TEAM_NAMES_cases {n : String} (hn : n ∈ TEAM_NAMES) :
    n = "Barcelona SC" ∨ n = "El Nacional" ∨ n = "Emelec" ∨ n = "LDU de Quito" ∨
    n = "Mushuc Runa SC" ∨ n = "Independiente del Valle" ∨
    n = "CD Tecnico Universitario" ∨ n = "Delfin" ∨ n = "Deportivo Cuenca" ∨
    n = "Aucas" ∨ n = "Universidad Catolica" ∨ n = "CSD Macara" ∨
    n = "Orense SC" ∨ n = "Manta FC" ∨ n = "Libertad" ∨ n = "Vinotinto" := by
  simpa [TEAM_NAMES, equipos_dict] using hn

theorem rolled_spec {n : String} (hn : n ∈ TEAM_NAMES) :
    rolled n ∈ TEAM_NAMES ∧ rolled n ≠ n ∧ nextInRegistry n = some (rolled n) := by
  rcases mem_TEAM_NAMES_cases hn with h | h | h | h | h | h | h | h | h | h | h | h | h | h | h | h <;>
    subst h <;> decide

theorem setSelectValue_of_mem {n : String} (hn : n ∈ TEAM_NAMES) :
    setSelectValue (some n) = n := by
  simp [setSelectValue, hn]

theorem onHomeChanged_eq (n : String) (s : Selection) :
    onHomeChanged n s =
      if n = s.awaySel then { homeSel := n, awaySel := rolled n } else { s with homeSel := n } := by
  simp only [onHomeChanged, rolled]

theorem onAwayChanged_eq (n : String) (s : Selection) :
    onAwayChanged n s =
      if n = s.homeSel then { homeSel := rolled n, awaySel := n } else { s with awaySel := n } := by
  simp only [onAwayChanged, rolled]

theorem swap_eq {s : Selection} (hh : s.homeSel ∈ TEAM_NAMES) (ha : s.awaySel ∈ TEAM_NAMES) :
    swap s = { homeSel := s.awaySel, awaySel := s.homeSel } := by
  simp [swap, setSelectValue_of_mem hh, setSelectValue_of_mem ha]

theorem run_valid (op : SelOp) (hop : op.Offered) {s : Selection} (hs : s.Valid) :
    (op.run s).Valid := by
  obtain ⟨hh, ha, hne⟩ := hs
  cases op with
  | home n =>
    have hn : n ∈ TEAM_NAMES := hop n rfl
    obtain ⟨h1, h2, _⟩ := rolled_spec hn
    simp only [SelOp.run, onHomeChanged_eq]
    split
    · exact ⟨hn, h1, fun h => h2 h.symm⟩
    · next hna => exact ⟨hn, ha, hna⟩
  | away n =>
    have hn : n ∈ TEAM_NAMES := hop n rfl
    obtain ⟨h1, h2, _⟩ := rolled_spec hn
    simp only [SelOp.run, onAwayChanged_eq]
    split
    · exact ⟨h1, hn, h2⟩
    · next hna => exact ⟨hh, hn, fun h => hna h.symm⟩
  | swap =>
    simp only [SelOp.run, swap_eq hh ha]
    exact ⟨ha, hh, fun h => hne h.symm⟩

theorem runOps_valid (ops : List SelOp) (hops : ∀ op ∈ ops, op.Offered) :
    ∀ s : Selection, s.Valid → (runOps ops s).Valid := by
  induction ops with
  | nil => intro s hs; exact hs
  | cons op rest ih =>
    intro s hs
    have h1 : (op.run s).Valid := run_valid op (hops op (List.mem_cons_self _ _)) hs
    exact ih (fun o ho => hops o (List.mem_cons_of_mem _ ho)) _ h1


/-! ## Selection controller: theorems -/

/-- C1 (no-collision invariant): from the initial selection, home "Emelec" and
away "Barcelona SC", every finite sequence of home changes, away changes (each
to a registry name) and swaps leaves both selections registry names with home
different from away. -/
theorem no_collision_invariant (ops : List SelOp) (hops : ∀ op ∈ ops, op.Offered) :
    populateSelects = { homeSel := "Emelec", awaySel := "Barcelona SC" } ∧
    (runOps ops populateSelects).homeSel ∈ TEAM_NAMES ∧
    (runOps ops populateSelects).awaySel ∈ TEAM_NAMES ∧
    (runOps ops populateSelects).homeSel ≠ (runOps ops populateSelects).awaySel := by
  have h0 : populateSelects.Valid := ⟨by decide, by decide, by decide⟩
  exact ⟨by decide, runOps_valid ops hops populateSelects h0⟩

/-- Witness of C1 on the sequence: home to "Barcelona SC" (a collision), away
to "Aucas", swap, away to "Aucas" (a collision). -/
theorem no_collision_invariant_witness :
    (∀ op ∈ [SelOp.home "Barcelona SC", SelOp.away "Aucas", SelOp.swap, SelOp.away "Aucas"],
      op.Offered) ∧
    runOps [SelOp.home "Barcelona SC", SelOp.away "Aucas", SelOp.swap, SelOp.away "Aucas"]
      populateSelects = { homeSel := "Universidad Catolica", awaySel := "Aucas" } ∧
    (runOps [SelOp.home "Barcelona SC", SelOp.away "Aucas", SelOp.swap, SelOp.away "Aucas"]
      populateSelects).homeSel ≠
    (runOps [SelOp.home "Barcelona SC", SelOp.away "Aucas", SelOp.swap, SelOp.away "Aucas"]
      populateSelects).awaySel :=
  have hops : ∀ op ∈ [SelOp.home "Barcelona SC", SelOp.away "Aucas", SelOp.swap,
      SelOp.away "Aucas"], op.Offered := by
    intro op hop n hn
    simp only [List.mem_cons, List.mem_singleton, List.not_mem_nil, or_false] at hop
    rcases hop with h | h | h | h <;> subst h <;> simp [SelOp.picked] at hn <;> subst hn <;> decide
  ⟨hops, by decide, (no_collision_invariant _ hops).2.2.2⟩

/-- C2 (collision rule): for every selection (registry names or not) and every
registry name n with successor nx = TEAM_NAMES[(indexOf n + 1) mod 16], a home change to n
leaves home = n and sets away to nx if n equals the old away, else keeps away;
an away change to n leaves away = n and sets home to nx if n equals the old
home, else keeps home; the successor of "Vinotinto" is "Barcelona SC". -/
theorem collision_rule (s : Selection) (n : String) (hn : n ∈ TEAM_NAMES) :
    ∃ nx, nextInRegistry n = some nx ∧
      (onHomeChanged n s).homeSel = n ∧
      (onHomeChanged n s).awaySel = (if n = s.awaySel then nx else s.awaySel) ∧
      (onAwayChanged n s).awaySel = n ∧
      (onAwayChanged n s).homeSel = (if n = s.homeSel then nx else s.homeSel) ∧
      nextInRegistry "Vinotinto" = some "Barcelona SC" := by
  obtain ⟨_, _, h3⟩ := rolled_spec hn
  refine ⟨rolled n, h3, ?_, ?_, ?_, ?_, by decide⟩
  · rw [onHomeChanged_eq]; split <;> rfl
  · rw [onHomeChanged_eq]; split <;> rfl
  · rw [onAwayChanged_eq]; split <;> rfl
  · rw [onAwayChanged_eq]; split <;> rfl

/-- Witness of C2: home "Emelec", away "Vinotinto", and the name "Vinotinto". -/
theorem collision_rule_witness :
    ∃ nx, nextInRegistry "Vinotinto" = some nx ∧
      (onHomeChanged "Vinotinto" ⟨"Emelec", "Vinotinto"⟩).homeSel = "Vinotinto" ∧
      (onHomeChanged "Vinotinto" ⟨"Emelec", "Vinotinto"⟩).awaySel =
        (if "Vinotinto" = (Selection.mk "Emelec" "Vinotinto").awaySel then nx
         else (Selection.mk "Emelec" "Vinotinto").awaySel) ∧
      (onAwayChanged "Vinotinto" ⟨"Emelec", "Vinotinto"⟩).awaySel = "Vinotinto" ∧
      (onAwayChanged "Vinotinto" ⟨"Emelec", "Vinotinto"⟩).homeSel =
        (if "Vinotinto" = (Selection.mk "Emelec" "Vinotinto").homeSel then nx
         else (Selection.mk "Emelec" "Vinotinto").homeSel) ∧
      nextInRegistry "Vinotinto" = some "Barcelona SC" :=
  collision_rule ⟨"Emelec", "Vinotinto"⟩ "Vinotinto" (by decide)

/-- C3 as stated fails: after home is set to "Aucas" and then away is set to
"Aucas", the away selection is still "Aucas"; it is not a name different from
"Aucas" and not "Universidad Catolica". -/
theorem same_team_away_not_resolved :
    (onAwayChanged "Aucas" (onHomeChanged "Aucas" populateSelects)).awaySel = "Aucas" ∧
    ¬ ((onAwayChanged "Aucas" (onHomeChanged "Aucas" populateSelects)).awaySel ≠ "Aucas" ∧
       (onAwayChanged "Aucas" (onHomeChanged "Aucas" populateSelects)).awaySel =
         "Universidad Catolica") := by
  decide

/-- C3 amended: for every registry name A and every earlier selection, after
home is set to A and then away is set to A, away stays A and home is resolved
to the registry entry that follows A in registry order, a registry name
different from A (for A = "Aucas", home becomes "Universidad Catolica"); the
two selections are not left equal. -/
theorem same_team_home_resolved (s : Selection) (A : String) (hA : A ∈ TEAM_NAMES) :
    (onAwayChanged A (onHomeChanged A s)).awaySel = A ∧
    nextInRegistry A = some (onAwayChanged A (onHomeChanged A s)).homeSel ∧
    (onAwayChanged A (onHomeChanged A s)).homeSel ∈ TEAM_NAMES ∧
    (onAwayChanged A (onHomeChanged A s)).homeSel ≠ A ∧
    (onAwayChanged A (onHomeChanged A s)).homeSel ≠
      (onAwayChanged A (onHomeChanged A s)).awaySel ∧
    (A = "Aucas" → (onAwayChanged A (onHomeChanged A s)).homeSel = "Universidad Catolica") := by
  obtain ⟨h1, h2, h3⟩ := rolled_spec hA
  have hfin : onAwayChanged A (onHomeChanged A s) = { homeSel := rolled A, awaySel := A } := by
    rw [onAwayChanged_eq, onHomeChanged_eq]
    split <;> simp
  rw [hfin]
  refine ⟨rfl, h3, h1, h2, h2, ?_⟩
  intro hAu
  subst hAu
  decide

/-- Witness of C3 amended: A = "Aucas" from the initial selection. -/
theorem same_team_home_resolved_witness :
    "Aucas" ∈ TEAM_NAMES ∧
    (onAwayChanged "Aucas" (onHomeChanged "Aucas" populateSelects)).homeSel =
      "Universidad Catolica" :=
  ⟨by decide, (same_team_home_resolved populateSelects "Aucas" (by decide)).2.2.2.2.2 rfl⟩

/-- C10: on a selection of registry names, swap makes the new home the old
away and the new away the old home, and swapping twice gives the selection
back. -/
theorem swap_involution (s : Selection) (hh : s.homeSel ∈ TEAM_NAMES)
    (ha : s.awaySel ∈ TEAM_NAMES) :
    (swap s).homeSel = s.awaySel ∧ (swap s).awaySel = s.homeSel ∧ swap (swap s) = s := by
  have h1 : swap s = { homeSel := s.awaySel, awaySel := s.homeSel } := swap_eq hh ha
  refine ⟨by rw [h1], by rw [h1], ?_⟩
  rw [h1, swap_eq (s := ⟨s.awaySel, s.homeSel⟩) ha hh]

/-- Witness of C10: home "Emelec", away "Barcelona SC". -/
theorem swap_involution_witness :
    swap ⟨"Emelec", "Barcelona SC"⟩ = ⟨"Barcelona SC", "Emelec"⟩ ∧
    swap (swap ⟨"Emelec", "Barcelona SC"⟩) = ⟨"Emelec", "Barcelona SC"⟩ :=
  have h := swap_involution ⟨"Emelec", "Barcelona SC"⟩ (by decide) (by decide)
  ⟨by decide, h.2.2⟩

/-! ## Simulator: lemmas -/

theorem randomInt_bounds (min max : ℤ) (r : ℚ) (hmm : min ≤ max) (h0 : 0 ≤ r) (h1 : r < 1) :
    min ≤ randomInt min max r ∧ randomInt min max r ≤ max := by
  unfold randomInt
  have hn : (0 : ℚ) < ((max - min + 1 : ℤ) : ℚ) := by
    have : (0 : ℤ) < max - min + 1 := by omega
    exact_mod_cast this
  have hlo : (0 : ℤ) ≤ ⌊r * ((max - min + 1 : ℤ) : ℚ)⌋ :=
    Int.floor_nonneg.mpr (mul_nonneg h0 hn.le)
  have hhi : ⌊r * ((max - min + 1 : ℤ) : ℚ)⌋ < max - min + 1 := by
    rw [Int.floor_lt]
    calc r * ((max - min + 1 : ℤ) : ℚ) < 1 * ((max - min + 1 : ℤ) : ℚ) :=
          mul_lt_mul_of_pos_right h1 hn
      _ = ((max - min + 1 : ℤ) : ℚ) := one_mul _
  constructor <;> omega

theorem mock_score_cases (rnd : Nat → ℚ) (k : Nat) :
    ((mockPrediction rnd k).1.score.home = 0 ∨ (mockPrediction rnd k).1.score.home = 1 ∨
      (mockPrediction rnd k).1.score.home = 2) ∧
    ((mockPrediction rnd k).1.score.away = 0 ∨ (mockPrediction rnd k).1.score.away = 1 ∨
      (mockPrediction rnd k).1.score.away = 2) := by
  simp only [mockPrediction]
  split_ifs <;> simp

theorem mock_probs_of_pos_sum (rnd : Nat → ℚ) (hr : UnitDraws rnd) (k : Nat)
    (hs : rnd k + rnd (k + 1) + rnd (k + 2) ≠ 0) :
    ∃ a b c : ℚ, (mockPrediction rnd k).1.home_win = .fin a ∧
      (mockPrediction rnd k).1.draw = .fin b ∧ (mockPrediction rnd k).1.away_win = .fin c ∧
      0 ≤ a ∧ a ≤ 1 ∧ 0 ≤ b ∧ b ≤ 1 ∧ 0 ≤ c ∧ c ≤ 1 ∧ a + b + c = 1 := by
  obtain ⟨ha0, _⟩ := hr k
  obtain ⟨hb0, _⟩ := hr (k + 1)
  obtain ⟨hc0, _⟩ := hr (k + 2)
  have hpos : 0 < rnd k + rnd (k + 1) + rnd (k + 2) :=
    lt_of_le_of_ne (by positivity) (Ne.symm hs)
  refine ⟨rnd k / (rnd k + rnd (k + 1) + rnd (k + 2)),
    rnd (k + 1) / (rnd k + rnd (k + 1) + rnd (k + 2)),
    rnd (k + 2) / (rnd k + rnd (k + 1) + rnd (k + 2)), ?_, ?_, ?_, ?_, ?_, ?_, ?_, ?_, ?_, ?_⟩
  · simp [mockPrediction, JSNum.add, JSNum.div, hs]
  · simp [mockPrediction, JSNum.add, JSNum.div, hs]
  · simp [mockPrediction, JSNum.add, JSNum.div, hs]
  · positivity
  · rw [div_le_one hpos]; linarith
  · positivity
  · rw [div_le_one hpos]; linarith
  · positivity
  · rw [div_le_one hpos]; linarith
  · field_simp

/-! ## Binary64 rounding: lemmas -/

theorem roundHalfEven_cases (x : ℚ) :
    (JSNum.roundHalfEven x = ⌊x⌋ ∧ x - ⌊x⌋ ≤ 1 / 2) ∨
    (JSNum.roundHalfEven x = ⌊x⌋ + 1 ∧ 1 / 2 ≤ x - ⌊x⌋) := by
  unfold JSNum.roundHalfEven
  split_ifs with h1 h2 h3
  · exact Or.inl ⟨rfl, h1.le⟩
  · exact Or.inr ⟨rfl, h2.le⟩
  · exact Or.inl ⟨rfl, le_of_not_lt h2⟩
  · exact Or.inr ⟨rfl, le_of_not_lt h1⟩

theorem roundHalfEven_le_of_le_int (x : ℚ) (N : ℤ) (h : x ≤ N) : JSNum.roundHalfEven x ≤ N := by
  have hf : ⌊x⌋ ≤ N := by
    have := Int.floor_le_floor (α := ℚ) h
    simpa using this
  rcases roundHalfEven_cases x with ⟨e, _⟩ | ⟨e, hx⟩
  · rw [e]; exact hf
  · rw [e]
    by_contra hcon
    have hN : N = ⌊x⌋ := by omega
    have : x ≤ (⌊x⌋ : ℚ) := by rw [← hN]; exact h
    linarith

theorem int_le_roundHalfEven (x : ℚ) (N : ℤ) (h : (N : ℚ) ≤ x) : N ≤ JSNum.roundHalfEven x := by
  have hf : N ≤ ⌊x⌋ := Int.le_floor.mpr h
  rcases roundHalfEven_cases x with ⟨e, _⟩ | ⟨e, _⟩ <;> rw [e] <;> omega

theorem abs_roundHalfEven_sub_le (x : ℚ) : |(JSNum.roundHalfEven x : ℚ) - x| ≤ 1 / 2 := by
  have h0 : (⌊x⌋ : ℚ) ≤ x := Int.floor_le x
  have h1 : x < ⌊x⌋ + 1 := Int.lt_floor_add_one x
  rw [abs_le]
  rcases roundHalfEven_cases x with ⟨e, hx⟩ | ⟨e, hx⟩ <;> rw [e] <;> push_cast <;>
    constructor <;> linarith

theorem ulp_pos (q : ℚ) : 0 < JSNum.ulp q := by
  unfold JSNum.ulp
  positivity

theorem binadeExp_ge (q : ℚ) : -1022 ≤ JSNum.binadeExp q := le_max_right _ _

theorem binadeExp_le (q : ℚ) (t : ℕ) (h : |q| < (2 : ℚ) ^ ((t : ℤ) + 1)) :
    JSNum.binadeExp q ≤ t := by
  unfold JSNum.binadeExp
  apply max_le _ (by omega)
  rcases (abs_nonneg q).eq_or_lt with h0 | h0
  · rw [← h0, Int.log_zero_right]
    omega
  · have := (Int.lt_zpow_iff_log_lt (R := ℚ) (b := 2) (by norm_num) h0).mp (by simpa using h)
    omega

theorem ulp_eq_of_binade (q : ℚ) (e : ℤ) (he : -1022 ≤ e) (h1 : (2 : ℚ) ^ e ≤ q)
    (h2 : q < (2 : ℚ) ^ (e + 1)) : JSNum.ulp q = (2 : ℚ) ^ (e - 52) := by
  have hq : 0 < q := lt_of_lt_of_le (by positivity) h1
  have hl1 : e ≤ Int.log 2 q :=
    (Int.zpow_le_iff_le_log (R := ℚ) (b := 2) (by norm_num) hq).mp (by simpa using h1)
  have hl2 : Int.log 2 q < e + 1 :=
    (Int.lt_zpow_iff_log_lt (R := ℚ) (b := 2) (by norm_num) hq).mp (by simpa using h2)
  have hl : Int.log 2 q = e := by omega
  unfold JSNum.ulp JSNum.binadeExp
  rw [abs_of_pos hq, hl, max_eq_left he]

theorem binary64_of_binade (q : ℚ) (e : ℤ) (he : -1022 ≤ e) (h1 : (2 : ℚ) ^ e ≤ q)
    (h2 : q < (2 : ℚ) ^ (e + 1))
    (hov : (JSNum.roundHalfEven (q / (2 : ℚ) ^ (e - 52)) : ℚ) * (2 : ℚ) ^ (e - 52) <
      (2 : ℚ) ^ (1024 : ℕ)) :
    JSNum.binary64 q =
      .fin ((JSNum.roundHalfEven (q / (2 : ℚ) ^ (e - 52)) : ℚ) * (2 : ℚ) ^ (e - 52)) := by
  have hq : 0 < q := lt_of_lt_of_le (zpow_pos (by norm_num) _) h1
  have hm0 : (0 : ℤ) ≤ JSNum.roundHalfEven (q / (2 : ℚ) ^ (e - 52)) := by
    apply int_le_roundHalfEven
    rw [Int.cast_zero]
    exact div_nonneg hq.le (zpow_nonneg (by norm_num) _)
  have hv0 : 0 ≤ (JSNum.roundHalfEven (q / (2 : ℚ) ^ (e - 52)) : ℚ) * (2 : ℚ) ^ (e - 52) :=
    mul_nonneg (by exact_mod_cast hm0) (zpow_nonneg (by norm_num) _)
  unfold JSNum.binary64
  rw [ulp_eq_of_binade q e he h1 h2, if_neg]
  rw [not_le, abs_of_nonneg hv0]
  exact hov

theorem binary64_bounds (q : ℚ) (N t : ℕ) (h0 : 0 ≤ q) (hN : q ≤ N)
    (hNt : (N : ℚ) < (2 : ℚ) ^ ((t : ℤ) + 1)) (ht : t ≤ 52) :
    ∃ v : ℚ, JSNum.binary64 q = .fin v ∧ 0 ≤ v ∧ v ≤ N ∧ |v - q| ≤ (2 : ℚ) ^ ((t : ℤ) - 53) := by
  have he1 : JSNum.binadeExp q ≤ t :=
    binadeExp_le q t (by rw [abs_of_nonneg h0]; exact lt_of_le_of_lt hN hNt)
  have hu : 0 < JSNum.ulp q := ulp_pos q
  obtain ⟨j, hj⟩ : ∃ j : ℕ, (j : ℤ) = 52 - JSNum.binadeExp q :=
    ⟨(52 - JSNum.binadeExp q).toNat, Int.toNat_of_nonneg (by omega)⟩
  have huj : JSNum.ulp q * (2 : ℚ) ^ j = 1 := by
    unfold JSNum.ulp
    rw [← zpow_natCast, hj, ← zpow_add₀ (by norm_num : (2 : ℚ) ≠ 0)]
    simp
  have hK : ((N * 2 ^ j : ℕ) : ℤ) = (N : ℚ) / JSNum.ulp q := by
    rw [eq_div_iff hu.ne']
    push_cast
    rw [mul_assoc, mul_comm ((2 : ℚ) ^ j), huj, mul_one]
  have hm1 : JSNum.roundHalfEven (q / JSNum.ulp q) ≤ ((N * 2 ^ j : ℕ) : ℤ) := by
    apply roundHalfEven_le_of_le_int
    rw [hK]
    exact div_le_div_of_nonneg_right hN hu.le
  have hm0 : (0 : ℤ) ≤ JSNum.roundHalfEven (q / JSNum.ulp q) := by
    apply int_le_roundHalfEven
    simpa using div_nonneg h0 hu.le
  have hv0 : 0 ≤ (JSNum.roundHalfEven (q / JSNum.ulp q) : ℚ) * JSNum.ulp q :=
    mul_nonneg (by exact_mod_cast hm0) hu.le
  have hvN : (JSNum.roundHalfEven (q / JSNum.ulp q) : ℚ) * JSNum.ulp q ≤ N := by
    have h : (JSNum.roundHalfEven (q / JSNum.ulp q) : ℚ) ≤ (N : ℚ) / JSNum.ulp q := by
      rw [← hK]
      exact_mod_cast hm1
    calc (JSNum.roundHalfEven (q / JSNum.ulp q) : ℚ) * JSNum.ulp q
        ≤ (N : ℚ) / JSNum.ulp q * JSNum.ulp q := mul_le_mul_of_nonneg_right h hu.le
      _ = N := div_mul_cancel₀ _ hu.ne'
  have hbig : (N : ℚ) < (2 : ℚ) ^ (1024 : ℕ) := by
    refine lt_of_lt_of_le hNt ?_
    rw [← zpow_natCast]
    exact zpow_le_zpow_right₀ (by norm_num) (by push_cast; omega)
  refine ⟨_, ?_, hv0, hvN, ?_⟩
  · unfold JSNum.binary64
    rw [if_neg]
    rw [not_le, abs_of_nonneg hv0]
    exact lt_of_le_of_lt hvN hbig
  · have hr := abs_roundHalfEven_sub_le (q / JSNum.ulp q)
    have e1 : (JSNum.roundHalfEven (q / JSNum.ulp q) : ℚ) * JSNum.ulp q - q =
        ((JSNum.roundHalfEven (q / JSNum.ulp q) : ℚ) - q / JSNum.ulp q) * JSNum.ulp q := by
      field_simp
    rw [e1, abs_mul, abs_of_pos hu]
    have e2 : JSNum.ulp q ≤ (2 : ℚ) ^ ((t : ℤ) - 52) := by
      unfold JSNum.ulp
      exact zpow_le_zpow_right₀ (by norm_num) (by omega)
    have e3 : (2 : ℚ) ^ ((t : ℤ) - 53) = 1 / 2 * (2 : ℚ) ^ ((t : ℤ) - 52) := by
      rw [show (t : ℤ) - 52 = ((t : ℤ) - 53) + 1 by ring, zpow_add_one₀ (by norm_num)]
      ring
    rw [e3]
    exact mul_le_mul hr e2 hu.le (by norm_num)

/-! ## Renderer: lemmas -/

theorem floor_int_add_half (z : ℤ) : ⌊(z : ℚ) + 1 / 2⌋ = z := by
  rw [Int.floor_eq_iff]
  constructor
  · linarith
  · linarith

theorem roundValue_intVal (rt : Runtime) (z : ℤ) : roundValue rt (intVal z) = some (.int z) := by
  simp only [roundValue, intVal, toNumber, Option.map_some', mathRound, floor_int_add_half]

theorem toNumber_of_not_object (rt : Runtime) (v : JSVal) (hv : v.isObject = false) :
    ∃ n, toNumber rt v = some n := by
  cases v <;> simp_all [toNumber, JSVal.isObject]

theorem toPct_of_not_object (rt : Runtime) (v : JSVal) (hv : v.isObject = false) :
    ∃ p, toPct rt v = some p := by
  obtain ⟨n, hn⟩ := toNumber_of_not_object rt v hv
  exact ⟨mathRound (n.orZero.mul (.fin 100)), by simp [toPct, hn]⟩

theorem roundValue_of_not_object (rt : Runtime) (v : JSVal) (hv : v.isObject = false) :
    ∃ p, roundValue rt v = some p := by
  obtain ⟨n, hn⟩ := toNumber_of_not_object rt v hv
  exact ⟨mathRound n, by simp [roundValue, hn]⟩

theorem getProp_obj (fs : List (String × JSVal)) (k : String) :
    (JSVal.obj fs).getProp k = some ((JSVal.obj fs).optProp k) := by
  simp [JSVal.getProp, JSVal.optProp]

theorem optProp_of_missing (fs : List (String × JSVal)) (p f : String) (h : Missing fs p f) :
    ((JSVal.obj fs).optProp p).optProp f = .undefined := by
  rcases h with h | ⟨gs, h1, h2⟩
  · simp [JSVal.optProp, JSVal.getProp, h]
  · simp [JSVal.optProp, JSVal.getProp, h1, h2]

theorem pctOf_fin (q : ℚ) : pctOf (.fin q) = mathRound (JSNum.binary64 (q * 100)) := by
  simp only [pctOf, JSNum.orZero]
  split
  · next h => simp [JSNum.mul, h]
  · rfl

theorem toPct_num (rt : Runtime) (n : JSNum) : toPct rt (.num n) = some (pctOf n) := rfl

theorem renderPcts_num (rt : Runtime) (fs : List (String × JSVal)) (nH nD nA : JSNum)
    (hH : fs.lookup "home_win" = some (.num nH)) (hD : fs.lookup "draw" = some (.num nD))
    (hA : fs.lookup "away_win" = some (.num nA)) :
    renderPcts rt (.obj fs) = some (pctOf nH, pctOf nD, pctOf nA) := by
  simp [renderPcts, JSVal.getProp, hH, hD, hA, toPct_num]

theorem pct_spec (p : ℚ) (h0 : 0 ≤ p) (h1 : p ≤ 1) :
    ∃ v : ℚ, JSNum.binary64 (p * 100) = .fin v ∧ |v - p * 100| ≤ (2 : ℚ) ^ (-47 : ℤ) ∧
      pctOf (.fin p) = .int (round v) ∧ 0 ≤ round v ∧ round v ≤ 100 ∧
      |round v - round (p * 100)| ≤ 1 := by
  obtain ⟨v, hv, hv0, hv1, hv2⟩ := binary64_bounds (p * 100) 100 6 (by positivity)
    (by push_cast; linarith) (by norm_num) (by norm_num)
  have hv2' : |v - p * 100| ≤ (2 : ℚ) ^ (-47 : ℤ) := by simpa using hv2
  have hsmall : (2 : ℚ) ^ (-47 : ℤ) ≤ 1 := by norm_num
  have hab := abs_le.mp (hv2'.trans hsmall)
  refine ⟨v, hv, hv2', ?_, ?_, ?_, ?_⟩
  · rw [pctOf_fin, hv, round_eq]; rfl
  · rw [round_eq]
    exact Int.floor_nonneg.mpr (by linarith)
  · rw [round_eq]
    have h : ⌊v + 1 / 2⌋ < 101 := by
      rw [Int.floor_lt]
      push_cast at hv1 ⊢
      linarith
    omega
  · rw [round_eq, round_eq, abs_le]
    constructor
    · have h : ⌊p * 100 + 1 / 2⌋ ≤ ⌊v + 1 / 2 + 1⌋ := Int.floor_le_floor (by linarith)
      rw [Int.floor_add_one] at h
      omega
    · have h : ⌊v + 1 / 2⌋ ≤ ⌊p * 100 + 1 / 2 + 1⌋ := Int.floor_le_floor (by linarith)
      rw [Int.floor_add_one] at h
      omega

theorem renderResults_of_parts (rt : Runtime) (rnd : Nat → ℚ) (res : JSVal) (k k1 k2 : Nat)
    (d : Dom) (pH pD pA sH sA cH cA yH yA : Rounded)
    (h1 : renderPcts rt res = some (pH, pD, pA))
    (h2 : renderScore rt res = some (sH, sA))
    (h3 : renderSides rt rnd res "corners" 2 9 k = (some (cH, cA), k1))
    (h4 : renderSides rt rnd res "cards" 1 5 k1 = (some (yH, yA), k2)) :
    renderResults rt rnd res k d =
      { dom := writeAll d pH pD pA sH sA cH cA yH yA, cursor := k2, threw := false } := by
  simp [renderResults, h1, h2, h3, h4, writeAll]

theorem renderResults_bars (rt : Runtime) (rnd : Nat → ℚ) (res : JSVal) (k : Nat)
    (d : Dom) (pH pD pA : Rounded) (h1 : renderPcts rt res = some (pH, pD, pA)) :
    (renderResults rt rnd res k d).dom.barHome = pctText pH ∧
    (renderResults rt rnd res k d).dom.barDraw = pctText pD ∧
    (renderResults rt rnd res k d).dom.barAway = pctText pA ∧
    (renderResults rt rnd res k d).dom.pctHome = pctText pH ∧
    (renderResults rt rnd res k d).dom.pctDraw = pctText pD ∧
    (renderResults rt rnd res k d).dom.pctAway = pctText pA := by
  simp only [renderResults, h1]
  split
  · simp
  · split
    · simp
    · split <;> simp

theorem renderSides_spec (rt : Runtime) (rnd : Nat → ℚ) (hr : UnitDraws rnd) (res : JSVal)
    (f : String) (min max : ℤ) (hmm : min ≤ max) (k : Nat)
    (hH : ((res.optProp f).optProp "home").isObject = false)
    (hA : ((res.optProp f).optProp "away").isObject = false) :
    ∃ vH vA k1, renderSides rt rnd res f min max k = (some (vH, vA), k1) ∧
      (((res.optProp f).optProp "home") = .undefined →
        ∃ n : ℤ, min ≤ n ∧ n ≤ max ∧ vH = .int n) ∧
      (((res.optProp f).optProp "away") = .undefined →
        ∃ n : ℤ, min ≤ n ∧ n ≤ max ∧ vA = .int n) := by
  have key : ∀ (v : JSVal) (j : Nat), v.isObject = false →
      ∃ w, roundValue rt (orRandomInt v min max rnd j).1 = some w ∧
        (v = .undefined → ∃ n : ℤ, min ≤ n ∧ n ≤ max ∧ w = .int n) := by
    intro v j hv
    by_cases hn : v.isNullish = true
    · refine ⟨.int (randomInt min max (rnd j)), ?_, fun _ => ⟨_, ?_, ?_, rfl⟩⟩
      · simp [orRandomInt, hn, roundValue_intVal]
      · exact (randomInt_bounds min max (rnd j) hmm (hr j).1 (hr j).2).1
      · exact (randomInt_bounds min max (rnd j) hmm (hr j).1 (hr j).2).2
    · obtain ⟨w, hw⟩ := roundValue_of_not_object rt v hv
      refine ⟨w, ?_, ?_⟩
      · simp [orRandomInt, hn, hw]
      · intro hu
        rw [hu] at hn
        simp [JSVal.isNullish] at hn
  obtain ⟨vH, hvH, hH2⟩ := key _ k hH
  obtain ⟨vA, hvA, hA2⟩ :=
    key _ (orRandomInt ((res.optProp f).optProp "home") min max rnd k).2 hA
  refine ⟨vH, vA,
    (orRandomInt ((res.optProp f).optProp "away") min max rnd
      (orRandomInt ((res.optProp f).optProp "home") min max rnd k).2).2, ?_, hH2, hA2⟩
  simp only [renderSides, hvH, hvA]

theorem renderScore_spec (rt : Runtime) (res : JSVal)
    (hH : ((res.optProp "score").optProp "home").isObject = false)
    (hA : ((res.optProp "score").optProp "away").isObject = false) :
    ∃ sH sA, renderScore rt res = some (sH, sA) ∧
      (((res.optProp "score").optProp "home") = .undefined → sH = .int 1) ∧
      (((res.optProp "score").optProp "away") = .undefined → sA = .int 1) := by
  have key : ∀ v : JSVal, v.isObject = false →
      ∃ w, roundValue rt (v.orElse (intVal 1)) = some w ∧ (v = .undefined → w = .int 1) := by
    intro v hv
    by_cases hn : v.isNullish = true
    · exact ⟨.int 1, by simp [JSVal.orElse, hn, roundValue_intVal], fun _ => rfl⟩
    · obtain ⟨w, hw⟩ := roundValue_of_not_object rt v hv
      refine ⟨w, by simp [JSVal.orElse, hn, hw], ?_⟩
      intro hu
      rw [hu] at hn
      simp [JSVal.isNullish] at hn
  obtain ⟨sH, h1, h2⟩ := key _ hH
  obtain ⟨sA, h3, h4⟩ := key _ hA
  exact ⟨sH, sA, by simp only [renderScore, h1, h3], h2, h4⟩

theorem renderPcts_of_primitive (rt : Runtime) (fs : List (String × JSVal))
    (hH : ((JSVal.obj fs).optProp "home_win").isObject = false)
    (hD : ((JSVal.obj fs).optProp "draw").isObject = false)
    (hA : ((JSVal.obj fs).optProp "away_win").isObject = false) :
    ∃ pH pD pA, renderPcts rt (.obj fs) = some (pH, pD, pA) := by
  obtain ⟨pH, h1⟩ := toPct_of_not_object rt _ hH
  obtain ⟨pD, h2⟩ := toPct_of_not_object rt _ hD
  obtain ⟨pA, h3⟩ := toPct_of_not_object rt _ hA
  exact ⟨pH, pD, pA, by simp [renderPcts, getProp_obj, h1, h2, h3]⟩

theorem fetchData_of_failure (net : Payload → NetOutcome) (rnd : Nat → ℚ) (sel : Selection)
    (k : Nat) (hfail : (net (buildPayload sel)).isFailure = true) :
    fetchData net rnd sel k = ((mockPrediction rnd k).1.toJSVal, (mockPrediction rnd k).2) := by
  unfold fetchData
  cases hnet : net (buildPayload sel) with
  | transportFailure => rfl
  | response status body =>
    rw [hnet] at hfail
    cases body with
    | malformed => simp
    | parsed v =>
      by_cases hok : NetOutcome.statusOk status = true
      · simp [NetOutcome.isFailure, hok] at hfail
      · simp [hok]

theorem orRandomInt_intVal (z min max : ℤ) (rnd : Nat → ℚ) (k : Nat) :
    orRandomInt (intVal z) min max rnd k = (intVal z, k) := rfl

theorem renderResults_mock (rt : Runtime) (rnd : Nat → ℚ) (m : MockData) (j : Nat) (d : Dom) :
    renderResults rt rnd m.toJSVal j d =
      { dom := writeAll d (pctOf m.home_win) (pctOf m.draw) (pctOf m.away_win)
          (.int m.score.home) (.int m.score.away) (.int m.corners.home) (.int m.corners.away)
          (.int m.cards.home) (.int m.cards.away),
        cursor := j, threw := false } := by
  refine renderResults_of_parts rt rnd m.toJSVal j j j d _ _ _ _ _ _ _ _ _ ?_ ?_ ?_ ?_
  · rfl
  · have e1 : ((m.toJSVal.optProp "score").optProp "home").orElse (intVal 1) =
        intVal m.score.home := rfl
    have e2 : ((m.toJSVal.optProp "score").optProp "away").orElse (intVal 1) =
        intVal m.score.away := rfl
    simp only [renderScore, e1, e2, roundValue_intVal]
  · have e1 : (m.toJSVal.optProp "corners").optProp "home" = intVal m.corners.home := rfl
    have e2 : (m.toJSVal.optProp "corners").optProp "away" = intVal m.corners.away := rfl
    simp only [renderSides, e1, e2, orRandomInt_intVal, roundValue_intVal]
  · have e1 : (m.toJSVal.optProp "cards").optProp "home" = intVal m.cards.home := rfl
    have e2 : (m.toJSVal.optProp "cards").optProp "away" = intVal m.cards.away := rfl
    simp only [renderSides, e1, e2, orRandomInt_intVal, roundValue_intVal]

theorem renderResults_corners_throw (rt : Runtime) (rnd : Nat → ℚ) (res : JSVal) (k k1 : Nat)
    (d : Dom) (pH pD pA sH sA : Rounded)
    (h1 : renderPcts rt res = some (pH, pD, pA))
    (h2 : renderScore rt res = some (sH, sA))
    (h3 : renderSides rt rnd res "corners" 2 9 k = (none, k1)) :
    (renderResults rt rnd res k d).threw = true ∧
    (renderResults rt rnd res k d).dom.cornersHome = d.cornersHome ∧
    (renderResults rt rnd res k d).dom.cornersAway = d.cornersAway ∧
    (renderResults rt rnd res k d).dom.cardsHome = d.cardsHome ∧
    (renderResults rt rnd res k d).dom.cardsAway = d.cardsAway := by
  simp [renderResults, h1, h2, h3]

/-! ## Simulator: theorems -/

/-- C7 at the failing input: when the three draws of mockPrediction are all 0
(each in [0,1)), the sum is 0 and each of home_win, draw and away_win is
0/0 = NaN, so none lies in [0,1] and they do not sum to 1. -/
theorem mock_probs_nan_on_zero_draws :
    UnitDraws (fun _ => 0) ∧
    (mockPrediction (fun _ => 0) 0).1.home_win = JSNum.nan ∧
    (mockPrediction (fun _ => 0) 0).1.draw = JSNum.nan ∧
    (mockPrediction (fun _ => 0) 0).1.away_win = JSNum.nan := by
  refine ⟨fun _ => ⟨le_refl _, by norm_num⟩, ?_, ?_, ?_⟩ <;>
    simp [mockPrediction, JSNum.add, JSNum.div]

/-- C8: for every stream of draws in [0,1), mockPrediction returns score,
corners and cards with both sides present in the returned object as integers,
corners.home in 3..10, corners.away in 2..9, each cards side in 1..5 and each
score side in 0..2; and randomInt(min, max) returns an integer r with
min <= r <= max for all integers min <= max and every draw in [0,1). -/
theorem mock_fields_in_range (rnd : Nat → ℚ) (hr : UnitDraws rnd) (k : Nat) :
    (∀ (min max : ℤ) (r : ℚ), min ≤ max → 0 ≤ r → r < 1 →
      min ≤ randomInt min max r ∧ randomInt min max r ≤ max) ∧
    (3 ≤ (mockPrediction rnd k).1.corners.home ∧ (mockPrediction rnd k).1.corners.home ≤ 10) ∧
    (2 ≤ (mockPrediction rnd k).1.corners.away ∧ (mockPrediction rnd k).1.corners.away ≤ 9) ∧
    (1 ≤ (mockPrediction rnd k).1.cards.home ∧ (mockPrediction rnd k).1.cards.home ≤ 5) ∧
    (1 ≤ (mockPrediction rnd k).1.cards.away ∧ (mockPrediction rnd k).1.cards.away ≤ 5) ∧
    (0 ≤ (mockPrediction rnd k).1.score.home ∧ (mockPrediction rnd k).1.score.home ≤ 2) ∧
    (0 ≤ (mockPrediction rnd k).1.score.away ∧ (mockPrediction rnd k).1.score.away ≤ 2) ∧
    ((mockPrediction rnd k).1.toJSVal.optProp "score").optProp "home" =
      intVal (mockPrediction rnd k).1.score.home ∧
    ((mockPrediction rnd k).1.toJSVal.optProp "score").optProp "away" =
      intVal (mockPrediction rnd k).1.score.away ∧
    ((mockPrediction rnd k).1.toJSVal.optProp "corners").optProp "home" =
      intVal (mockPrediction rnd k).1.corners.home ∧
    ((mockPrediction rnd k).1.toJSVal.optProp "corners").optProp "away" =
      intVal (mockPrediction rnd k).1.corners.away ∧
    ((mockPrediction rnd k).1.toJSVal.optProp "cards").optProp "home" =
      intVal (mockPrediction rnd k).1.cards.home ∧
    ((mockPrediction rnd k).1.toJSVal.optProp "cards").optProp "away" =
      intVal (mockPrediction rnd k).1.cards.away := by
  have hs := mock_score_cases rnd k
  refine ⟨fun min max r hmm h0 h1 => randomInt_bounds min max r hmm h0 h1,
    ?_, ?_, ?_, ?_, ?_, ?_, rfl, rfl, rfl, rfl, rfl, rfl⟩
  · simp only [mockPrediction]
    exact randomInt_bounds 3 10 _ (by norm_num) (hr _).1 (hr _).2
  · simp only [mockPrediction]
    exact randomInt_bounds 2 9 _ (by norm_num) (hr _).1 (hr _).2
  · simp only [mockPrediction]
    exact randomInt_bounds 1 5 _ (by norm_num) (hr _).1 (hr _).2
  · simp only [mockPrediction]
    exact randomInt_bounds 1 5 _ (by norm_num) (hr _).1 (hr _).2
  · omega
  · omega

/-- Witness of C8: every draw equal to 1/2 gives corners 7 and 6, cards 3 and
3, and, the three probabilities being equal, the score 1 - 2. -/
theorem mock_fields_in_range_witness :
    UnitDraws (fun _ => 1 / 2) ∧
    (3 ≤ (mockPrediction (fun _ => 1 / 2) 0).1.corners.home ∧
      (mockPrediction (fun _ => 1 / 2) 0).1.corners.home ≤ 10) ∧
    (mockPrediction (fun _ => 1 / 2) 0).1.corners = ⟨7, 6⟩ ∧
    (mockPrediction (fun _ => 1 / 2) 0).1.cards = ⟨3, 3⟩ ∧
    (mockPrediction (fun _ => 1 / 2) 0).1.score = ⟨1, 2⟩ :=
  have hr : UnitDraws (fun _ => 1 / 2) := fun _ => ⟨by norm_num, by norm_num⟩
  ⟨hr, (mock_fields_in_range (fun _ => 1 / 2) hr 0).2.1,
    by simp only [mockPrediction, randomInt]; norm_num,
    by simp only [mockPrediction, randomInt]; norm_num,
    by simp [mockPrediction, JSNum.add, JSNum.div, mathMax3, JSNum.max2, JSNum.strictEq]; norm_num⟩

/-! ## Renderer and prediction client: theorems -/

/-- C9 as stated fails: the result whose home_win is the binary64 number
nearest 0.015, namely 1080863910568919 / 2^56 (a binary64 value in [0,1]),
shows "2%" on the home bar, because the binary64 product with 100 is exactly
1.5, while round of the exact product p * 100 = 1.5 - 2^-54 is 1. -/
theorem percentage_tie_counterexample :
    (0 : ℚ) ≤ 1080863910568919 / 2 ^ 56 ∧ (1080863910568919 / 2 ^ 56 : ℚ) ≤ 1 ∧
    JSNum.binary64 (1080863910568919 / 2 ^ 56) = .fin (1080863910568919 / 2 ^ 56) ∧
    JSNum.binary64 (1080863910568919 / 2 ^ 56 * 100) = .fin (3 / 2) ∧
    (renderResults sampleRuntime (fun _ => 0)
      (.obj [("home_win", .num (.fin (1080863910568919 / 2 ^ 56))),
        ("draw", .num (.fin (1 / 2))), ("away_win", .num (.fin (31 / 64)))])
      0 samplePage).dom.barHome = "2%" ∧
    round ((1080863910568919 / 2 ^ 56 : ℚ) * 100) = 1 ∧
    (renderResults sampleRuntime (fun _ => 0)
      (.obj [("home_win", .num (.fin (1080863910568919 / 2 ^ 56))),
        ("draw", .num (.fin (1 / 2))), ("away_win", .num (.fin (31 / 64)))])
      0 samplePage).dom.barHome ≠
      toString (round ((1080863910568919 / 2 ^ 56 : ℚ) * 100)) ++ "%" := by
  have hb : JSNum.binary64 (1080863910568919 / 2 ^ 56 * 100) = .fin (3 / 2) := by
    rw [binary64_of_binade _ 0 (by norm_num) (by norm_num) (by norm_num)
      (by norm_num [JSNum.roundHalfEven])]
    norm_num [JSNum.roundHalfEven]
  have hp : pctOf (.fin (1080863910568919 / 2 ^ 56)) = .int 2 := by
    rw [pctOf_fin, hb]
    norm_num [mathRound]
  have hr : round ((1080863910568919 / 2 ^ 56 : ℚ) * 100) = 1 := by norm_num [round_eq]
  have hbar := (renderResults_bars sampleRuntime (fun _ => 0) _ 0 samplePage _ _ _
    (renderPcts_num sampleRuntime
      [("home_win", .num (.fin (1080863910568919 / 2 ^ 56))),
        ("draw", .num (.fin (1 / 2))), ("away_win", .num (.fin (31 / 64)))]
      _ _ _ rfl rfl rfl)).1
  rw [hp] at hbar
  refine ⟨by norm_num, by norm_num, ?_, hb, hbar, hr, ?_⟩
  · rw [binary64_of_binade _ (-7) (by norm_num) (by norm_num) (by norm_num)
      (by norm_num [JSNum.roundHalfEven])]
    norm_num [JSNum.roundHalfEven]
  · rw [hbar, hr]
    decide

/-- C9 amended (percentage rendering): for every result object whose three
probabilities are numbers p in [0,1], whatever else it holds, each bar width
and each label is the text, followed by "%", of Math.round of the binary64
product v of its own probability with 100; v is within 2^-47 of p * 100, the
percentage is an integer between 0 and 100 and differs from round(p * 100) by
at most 1; the three are computed independently: the probabilities 1/8, 1/8,
3/4 give 13, 13 and 75, whose sum is 101. -/
theorem percentage_rendering (rt : Runtime) (rnd : Nat → ℚ) (k : Nat) (d : Dom)
    (fs : List (String × JSVal)) (pH pD pA : ℚ)
    (hH : fs.lookup "home_win" = some (.num (.fin pH)))
    (hD : fs.lookup "draw" = some (.num (.fin pD)))
    (hA : fs.lookup "away_win" = some (.num (.fin pA)))
    (bH : 0 ≤ pH ∧ pH ≤ 1) (bD : 0 ≤ pD ∧ pD ≤ 1) (bA : 0 ≤ pA ∧ pA ≤ 1) :
    (∃ v : ℚ, JSNum.binary64 (pH * 100) = .fin v ∧ |v - pH * 100| ≤ (2 : ℚ) ^ (-47 : ℤ) ∧
      (renderResults rt rnd (.obj fs) k d).dom.barHome = toString (round v) ++ "%" ∧
      (renderResults rt rnd (.obj fs) k d).dom.pctHome = toString (round v) ++ "%" ∧
      0 ≤ round v ∧ round v ≤ 100 ∧ |round v - round (pH * 100)| ≤ 1) ∧
    (∃ v : ℚ, JSNum.binary64 (pD * 100) = .fin v ∧ |v - pD * 100| ≤ (2 : ℚ) ^ (-47 : ℤ) ∧
      (renderResults rt rnd (.obj fs) k d).dom.barDraw = toString (round v) ++ "%" ∧
      (renderResults rt rnd (.obj fs) k d).dom.pctDraw = toString (round v) ++ "%" ∧
      0 ≤ round v ∧ round v ≤ 100 ∧ |round v - round (pD * 100)| ≤ 1) ∧
    (∃ v : ℚ, JSNum.binary64 (pA * 100) = .fin v ∧ |v - pA * 100| ≤ (2 : ℚ) ^ (-47 : ℤ) ∧
      (renderResults rt rnd (.obj fs) k d).dom.barAway = toString (round v) ++ "%" ∧
      (renderResults rt rnd (.obj fs) k d).dom.pctAway = toString (round v) ++ "%" ∧
      0 ≤ round v ∧ round v ≤ 100 ∧ |round v - round (pA * 100)| ≤ 1) ∧
    (pctOf (.fin (1 / 8)) = .int 13 ∧ pctOf (.fin (3 / 4)) = .int 75 ∧
      (13 + 13 + 75 : ℤ) ≠ 100) := by
  obtain ⟨e1, e2, e3, e4, e5, e6⟩ := renderResults_bars rt rnd (.obj fs) k d _ _ _
    (renderPcts_num rt fs _ _ _ hH hD hA)
  obtain ⟨vH, a1, a2, a3, a4, a5, a6⟩ := pct_spec pH bH.1 bH.2
  obtain ⟨vD, b1, b2, b3, b4, b5, b6⟩ := pct_spec pD bD.1 bD.2
  obtain ⟨vA, c1, c2, c3, c4, c5, c6⟩ := pct_spec pA bA.1 bA.2
  rw [a3] at e1 e4
  rw [b3] at e2 e5
  rw [c3] at e3 e6
  refine ⟨⟨vH, a1, a2, e1, e4, a4, a5, a6⟩, ⟨vD, b1, b2, e2, e5, b4, b5, b6⟩,
    ⟨vA, c1, c2, e3, e6, c4, c5, c6⟩, ?_, ?_, by norm_num⟩
  · rw [pctOf_fin, binary64_of_binade _ 3 (by norm_num) (by norm_num) (by norm_num)
      (by norm_num [JSNum.roundHalfEven])]
    norm_num [JSNum.roundHalfEven, mathRound]
  · rw [pctOf_fin, binary64_of_binade _ 6 (by norm_num) (by norm_num) (by norm_num)
      (by norm_num [JSNum.roundHalfEven])]
    norm_num [JSNum.roundHalfEven, mathRound]

/-- Witness of C9 amended: the result with probabilities 1/8, 1/8, 3/4 and
nothing else shows 13%, 13% and 75% on the bars. -/
theorem percentage_rendering_witness :
    (renderResults sampleRuntime (fun _ => 0)
      (.obj [("home_win", .num (.fin (1 / 8))), ("draw", .num (.fin (1 / 8))),
        ("away_win", .num (.fin (3 / 4)))]) 0 samplePage).dom.barHome = "13%" ∧
    (renderResults sampleRuntime (fun _ => 0)
      (.obj [("home_win", .num (.fin (1 / 8))), ("draw", .num (.fin (1 / 8))),
        ("away_win", .num (.fin (3 / 4)))]) 0 samplePage).dom.barDraw = "13%" ∧
    (renderResults sampleRuntime (fun _ => 0)
      (.obj [("home_win", .num (.fin (1 / 8))), ("draw", .num (.fin (1 / 8))),
        ("away_win", .num (.fin (3 / 4)))]) 0 samplePage).dom.barAway = "75%" := by
  have h := percentage_rendering sampleRuntime (fun _ => 0) 0 samplePage
    [("home_win", .num (.fin (1 / 8))), ("draw", .num (.fin (1 / 8))),
      ("away_win", .num (.fin (3 / 4)))] (1 / 8) (1 / 8) (3 / 4) rfl rfl rfl
    ⟨by norm_num, by norm_num⟩ ⟨by norm_num, by norm_num⟩ ⟨by norm_num, by norm_num⟩
  have b1 : JSNum.binary64 ((1 / 8 : ℚ) * 100) = .fin (25 / 2) := by
    rw [binary64_of_binade _ 3 (by norm_num) (by norm_num) (by norm_num)
      (by norm_num [JSNum.roundHalfEven])]
    norm_num [JSNum.roundHalfEven]
  have b2 : JSNum.binary64 ((3 / 4 : ℚ) * 100) = .fin 75 := by
    rw [binary64_of_binade _ 6 (by norm_num) (by norm_num) (by norm_num)
      (by norm_num [JSNum.roundHalfEven])]
    norm_num [JSNum.roundHalfEven]
  have r1 : round ((25 / 2 : ℚ)) = 13 := by norm_num [round_eq]
  have r2 : round ((75 : ℚ)) = 75 := by norm_num [round_eq]
  obtain ⟨⟨vH, a1, _, a3, _⟩, ⟨vD, d1, _, d3, _⟩, ⟨vA, c1, _, c3, _⟩, _⟩ := h
  rw [b1] at a1 d1
  rw [b2] at c1
  cases a1
  cases d1
  cases c1
  rw [r1] at a3 d3
  rw [r2] at c3
  exact ⟨a3, d3, c3⟩

/-- C6 as stated fails: on the result object
`{"home_win":0.5,"draw":0.25,"away_win":0.25,"corners":{"away":{"valueOf":1,"toString":1}}}`
corners.home and both cards sides are missing, but Math.round raises on
corners.away (line 222) before lines 223-230 write anything: the renderer ends
by a throw, and the corners and cards widgets keep their old content, here
the empty text, which is no integer in 2..9 or 1..5. -/
theorem missing_corner_not_rendered :
    UnitDraws (fun _ => 1 / 2) ∧
    Missing uncoercibleCornerResult "corners" "home" ∧
    Missing uncoercibleCornerResult "cards" "home" ∧
    Missing uncoercibleCornerResult "cards" "away" ∧
    (renderResults sampleRuntime (fun _ => 1 / 2) (.obj uncoercibleCornerResult) 0
      samplePage).threw = true ∧
    (renderResults sampleRuntime (fun _ => 1 / 2) (.obj uncoercibleCornerResult) 0
      samplePage).dom.cornersHome = "" ∧
    (renderResults sampleRuntime (fun _ => 1 / 2) (.obj uncoercibleCornerResult) 0
      samplePage).dom.cardsHome = "" ∧
    (renderResults sampleRuntime (fun _ => 1 / 2) (.obj uncoercibleCornerResult) 0
      samplePage).dom.cardsAway = "" ∧
    ¬ ∃ n : ℤ, 2 ≤ n ∧ n ≤ 9 ∧
      (renderResults sampleRuntime (fun _ => 1 / 2) (.obj uncoercibleCornerResult) 0
        samplePage).dom.cornersHome = toString n := by
  have h1 := renderPcts_num sampleRuntime uncoercibleCornerResult _ _ _ rfl rfl rfl
  have h2 : renderScore sampleRuntime (.obj uncoercibleCornerResult) =
      some (.int 1, .int 1) := by
    have e1 : (((JSVal.obj uncoercibleCornerResult).optProp "score").optProp "home").orElse
        (intVal 1) = intVal 1 := rfl
    have e2 : (((JSVal.obj uncoercibleCornerResult).optProp "score").optProp "away").orElse
        (intVal 1) = intVal 1 := rfl
    simp only [renderScore, e1, e2, roundValue_intVal]
  have h3 : renderSides sampleRuntime (fun _ => 1 / 2) (.obj uncoercibleCornerResult)
      "corners" 2 9 0 = (none, 1) := by
    have e1 : orRandomInt (((JSVal.obj uncoercibleCornerResult).optProp "corners").optProp
        "home") 2 9 (fun _ => 1 / 2) 0 = (intVal (randomInt 2 9 (1 / 2)), 1) := rfl
    have e2 : roundValue sampleRuntime (orRandomInt
        (((JSVal.obj uncoercibleCornerResult).optProp "corners").optProp "away") 2 9
        (fun _ => 1 / 2) 1).1 = none := rfl
    have e3 : (orRandomInt
        (((JSVal.obj uncoercibleCornerResult).optProp "corners").optProp "away") 2 9
        (fun _ => 1 / 2) 1).2 = 1 := rfl
    simp only [renderSides, e1, roundValue_intVal, e2, e3]
  obtain ⟨t1, t2, _, t4, t5⟩ := renderResults_corners_throw sampleRuntime (fun _ => 1 / 2)
    (.obj uncoercibleCornerResult) 0 1 samplePage _ _ _ _ _ h1 h2 h3
  refine ⟨fun _ => ⟨by norm_num, by norm_num⟩, Or.inr ⟨_, rfl, rfl⟩, Or.inl rfl, Or.inl rfl,
    t1, t2, t4, t5, ?_⟩
  rintro ⟨n, hn1, hn2, hn3⟩
  rw [t2] at hn3
  interval_cases n <;> revert hn3 <;> decide

/-- C6 amended (field-by-field defaulting): for every result object whose present leaf
fields are JSON primitives and every stream of draws in [0,1), the renderer
completes, and each missing field is rendered as an integer default: the score
text is sH - sA with sH = 1 if score.home is missing and sA = 1 if score.away
is missing (so a result without score shows "1 - 1"); a missing corners side
shows an integer in 2..9 and a missing cards side an integer in 1..5; a result
lacking corners shows two integer corner values. -/
theorem missing_fields_defaulted (rt : Runtime) (rnd : Nat → ℚ) (hr : UnitDraws rnd) (k : Nat)
    (d : Dom) (fs : List (String × JSVal)) (hp : PrimitiveLeaves (.obj fs)) :
    (renderResults rt rnd (.obj fs) k d).threw = false ∧
    (∃ sH sA : Rounded,
      (renderResults rt rnd (.obj fs) k d).dom.score = sH.toString ++ " - " ++ sA.toString ∧
      (Missing fs "score" "home" → sH = .int 1) ∧
      (Missing fs "score" "away" → sA = .int 1)) ∧
    (fs.lookup "score" = none → (renderResults rt rnd (.obj fs) k d).dom.score = "1 - 1") ∧
    (Missing fs "corners" "home" → ∃ n : ℤ, 2 ≤ n ∧ n ≤ 9 ∧
      (renderResults rt rnd (.obj fs) k d).dom.cornersHome = toString n) ∧
    (Missing fs "corners" "away" → ∃ n : ℤ, 2 ≤ n ∧ n ≤ 9 ∧
      (renderResults rt rnd (.obj fs) k d).dom.cornersAway = toString n) ∧
    (Missing fs "cards" "home" → ∃ n : ℤ, 1 ≤ n ∧ n ≤ 5 ∧
      (renderResults rt rnd (.obj fs) k d).dom.cardsHome = toString n) ∧
    (Missing fs "cards" "away" → ∃ n : ℤ, 1 ≤ n ∧ n ≤ 5 ∧
      (renderResults rt rnd (.obj fs) k d).dom.cardsAway = toString n) ∧
    (fs.lookup "corners" = none → ∃ n m : ℤ, 2 ≤ n ∧ n ≤ 9 ∧ 2 ≤ m ∧ m ≤ 9 ∧
      (renderResults rt rnd (.obj fs) k d).dom.cornersHome = toString n ∧
      (renderResults rt rnd (.obj fs) k d).dom.cornersAway = toString m) := by
  obtain ⟨hpH, hpD, hpA, hleaf⟩ := hp
  obtain ⟨pH, pD, pA, h1⟩ := renderPcts_of_primitive rt fs hpH hpD hpA
  obtain ⟨sH, sA, h2, hsH, hsA⟩ := renderScore_spec rt (.obj fs)
    (hleaf "score" (by simp) "home" (by simp)) (hleaf "score" (by simp) "away" (by simp))
  obtain ⟨cH, cA, k1, h3, hcH, hcA⟩ := renderSides_spec rt rnd hr (.obj fs) "corners" 2 9
    (by norm_num) k (hleaf "corners" (by simp) "home" (by simp))
    (hleaf "corners" (by simp) "away" (by simp))
  obtain ⟨yH, yA, k2, h4, hyH, hyA⟩ := renderSides_spec rt rnd hr (.obj fs) "cards" 1 5
    (by norm_num) k1 (hleaf "cards" (by simp) "home" (by simp))
    (hleaf "cards" (by simp) "away" (by simp))
  rw [renderResults_of_parts rt rnd (.obj fs) k k1 k2 d pH pD pA sH sA cH cA yH yA h1 h2 h3 h4]
  have side : ∀ (p f : String) (v : Rounded) (lo hi : ℤ),
      (((JSVal.obj fs).optProp p).optProp f = .undefined →
        ∃ n : ℤ, lo ≤ n ∧ n ≤ hi ∧ v = .int n) →
      Missing fs p f → ∃ n : ℤ, lo ≤ n ∧ n ≤ hi ∧ v.toString = toString n := by
    intro p f v lo hi hv hm
    obtain ⟨n, hn1, hn2, hn3⟩ := hv (optProp_of_missing fs p f hm)
    exact ⟨n, hn1, hn2, by rw [hn3]; rfl⟩
  refine ⟨rfl, ⟨sH, sA, rfl, fun hm => hsH (optProp_of_missing fs _ _ hm),
    fun hm => hsA (optProp_of_missing fs _ _ hm)⟩, ?_, side _ _ cH 2 9 hcH, side _ _ cA 2 9 hcA,
    side _ _ yH 1 5 hyH, side _ _ yA 1 5 hyA, ?_⟩
  · intro hno
    have e1 : sH = .int 1 := hsH (optProp_of_missing fs _ _ (Or.inl hno))
    have e2 : sA = .int 1 := hsA (optProp_of_missing fs _ _ (Or.inl hno))
    simp only [writeAll, scoreText, e1, e2]
    decide
  · intro hno
    obtain ⟨n, hn1, hn2, hn3⟩ := side _ _ cH 2 9 hcH (Or.inl hno)
    obtain ⟨m, hm1, hm2, hm3⟩ := side _ _ cA 2 9 hcA (Or.inl hno)
    exact ⟨n, m, hn1, hn2, hm1, hm2, hn3, hm3⟩

/-- Witness of C6 amended: the result that holds only the three probabilities, with
every draw 1/2, shows the score "1 - 1", corners 6 and 6, cards 3 and 3. -/
theorem missing_fields_defaulted_witness :
    UnitDraws (fun _ => 1 / 2) ∧
    PrimitiveLeaves (.obj [("home_win", .num (.fin (1 / 2))), ("draw", .num (.fin (1 / 4))),
      ("away_win", .num (.fin (1 / 4)))]) ∧
    (renderResults sampleRuntime (fun _ => 1 / 2)
      (.obj [("home_win", .num (.fin (1 / 2))), ("draw", .num (.fin (1 / 4))),
        ("away_win", .num (.fin (1 / 4)))]) 0 samplePage).threw = false ∧
    (renderResults sampleRuntime (fun _ => 1 / 2)
      (.obj [("home_win", .num (.fin (1 / 2))), ("draw", .num (.fin (1 / 4))),
        ("away_win", .num (.fin (1 / 4)))]) 0 samplePage).dom.score = "1 - 1" :=
  have hr : UnitDraws (fun _ => 1 / 2) := fun _ => ⟨by norm_num, by norm_num⟩
  have hp : PrimitiveLeaves (.obj [("home_win", .num (.fin (1 / 2))),
      ("draw", .num (.fin (1 / 4))), ("away_win", .num (.fin (1 / 4)))]) := by
    refine ⟨rfl, rfl, rfl, ?_⟩
    intro p hp f hf
    simp only [List.mem_cons, List.mem_singleton, List.not_mem_nil, or_false] at hp hf
    rcases hp with h | h | h <;> rcases hf with g | g <;> subst h <;> subst g <;> rfl
  have h := missing_fields_defaulted sampleRuntime (fun _ => 1 / 2) hr 0 samplePage _ hp
  ⟨hr, hp, h.1, h.2.2.1 rfl⟩

/-- C4 (silent fallback): for every selection and every network outcome that
is a transport failure, a non-success status or a body that does not parse,
predict renders the result of mockPrediction: each bar and label shows the
percentage of its probability, the score shows the two score sides, corners and
cards show their two sides; the notice is hidden with its text untouched, no
exception escapes, and the trigger ends enabled with the label "Predecir". -/
theorem silent_fallback (rt : Runtime) (net : Payload → NetOutcome) (rnd : Nat → ℚ)
    (sel : Selection) (k : Nat) (d : Dom)
    (hfail : (net (buildPayload sel)).isFailure = true) :
    (predict rt net rnd sel k d).dom.barHome =
      (pctOf (mockPrediction rnd k).1.home_win).toString ++ "%" ∧
    (predict rt net rnd sel k d).dom.barDraw =
      (pctOf (mockPrediction rnd k).1.draw).toString ++ "%" ∧
    (predict rt net rnd sel k d).dom.barAway =
      (pctOf (mockPrediction rnd k).1.away_win).toString ++ "%" ∧
    (predict rt net rnd sel k d).dom.pctHome = (predict rt net rnd sel k d).dom.barHome ∧
    (predict rt net rnd sel k d).dom.pctDraw = (predict rt net rnd sel k d).dom.barDraw ∧
    (predict rt net rnd sel k d).dom.pctAway = (predict rt net rnd sel k d).dom.barAway ∧
    (predict rt net rnd sel k d).dom.score =
      toString (mockPrediction rnd k).1.score.home ++ " - " ++
        toString (mockPrediction rnd k).1.score.away ∧
    (predict rt net rnd sel k d).dom.cornersHome =
      toString (mockPrediction rnd k).1.corners.home ∧
    (predict rt net rnd sel k d).dom.cornersAway =
      toString (mockPrediction rnd k).1.corners.away ∧
    (predict rt net rnd sel k d).dom.cardsHome = toString (mockPrediction rnd k).1.cards.home ∧
    (predict rt net rnd sel k d).dom.cardsAway = toString (mockPrediction rnd k).1.cards.away ∧
    (predict rt net rnd sel k d).dom.noticeHidden = true ∧
    (predict rt net rnd sel k d).dom.noticeText = d.noticeText ∧
    (predict rt net rnd sel k d).dom.btnDisabled = false ∧
    (predict rt net rnd sel k d).dom.btnText = "Predecir" ∧
    (predict rt net rnd sel k d).threw = false := by
  simp only [predict, fetchData_of_failure net rnd sel k hfail, renderResults_mock]
  simp [writeAll, setLoading, pctText, scoreText, Rounded.toString]

/-- Witness of C4: home "Emelec", away "Barcelona SC", the endpoint answering
404, every draw 1/2: the widgets show 33% three times, the score 1 - 2,
corners 7 and 6, cards 3 and 3, with the notice hidden and the trigger
enabled. -/
theorem silent_fallback_witness :
    (NetOutcome.response 404 Body.malformed).isFailure = true ∧
    (predict sampleRuntime (fun _ => .response 404 .malformed) (fun _ => 1 / 2)
      populateSelects 0 samplePage).dom =
      { barHome := "33%", barDraw := "33%", barAway := "33%",
        pctHome := "33%", pctDraw := "33%", pctAway := "33%",
        score := "1 - 2", cornersHome := "7", cornersAway := "6",
        cardsHome := "3", cardsAway := "3",
        noticeHidden := true, noticeText := "", btnDisabled := false, btnText := "Predecir" } := by
  have h := silent_fallback sampleRuntime (fun _ => .response 404 .malformed) (fun _ => 1 / 2)
    populateSelects 0 samplePage rfl
  have hm : (mockPrediction (fun _ => 1 / 2) 0).1 =
      { home_win := .fin (1 / 3), draw := .fin (1 / 3), away_win := .fin (1 / 3),
        score := ⟨1, 2⟩, corners := ⟨7, 6⟩, cards := ⟨3, 3⟩ } := by
    simp [mockPrediction, JSNum.add, JSNum.div, mathMax3, JSNum.max2, JSNum.strictEq, randomInt]
    norm_num
  have hp : pctOf (.fin (1 / 3)) = .int 33 := by
    rw [pctOf_fin, binary64_of_binade _ 5 (by norm_num) (by norm_num) (by norm_num)
      (by norm_num [JSNum.roundHalfEven])]
    norm_num [JSNum.roundHalfEven, mathRound]
  rw [hm] at h
  simp only [hp] at h
  obtain ⟨h1, h2, h3, h4, h5, h6, h7, h8, h9, h10, h11, h12, h13, h14, h15, _⟩ := h
  refine ⟨rfl, ?_⟩
  rw [h1] at h4
  rw [h2] at h5
  rw [h3] at h6
  cases hd : (predict sampleRuntime (fun _ => .response 404 .malformed) (fun _ => 1 / 2)
      populateSelects 0 samplePage).dom
  rw [hd] at h1 h2 h3 h4 h5 h6 h7 h8 h9 h10 h11 h12 h13 h14 h15
  simp only at h1 h2 h3 h4 h5 h6 h7 h8 h9 h10 h11 h12 h13 h14 h15
  subst h1 h2 h3 h4 h5 h6 h7 h8 h9 h10 h11 h12 h13 h14 h15
  decide

/-- C5 at the failing input: a response with status 200 whose body is the JSON
text null parses, so it is not a failure of the network attempt; renderResults
raises on its first property read, before any widget is written, and predict
ends with the error notice shown. -/
theorem renderer_throws_on_null (rt : Runtime) (rnd : Nat → ℚ) (sel : Selection) (k : Nat)
    (d : Dom) :
    (NetOutcome.response 200 (.parsed .null)).isFailure = false ∧
    renderResults rt rnd .null k d = { dom := d, cursor := k, threw := true } ∧
    (predict rt (fun _ => .response 200 (.parsed .null)) rnd sel k d).dom.noticeHidden = false ∧
    (predict rt (fun _ => .response 200 (.parsed .null)) rnd sel k d).dom.noticeText =
      "Ocurrió un error inesperado. Revisa la consola." ∧
    (predict rt (fun _ => .response 200 (.parsed .null)) rnd sel k d).dom.score = d.score := by
  refine ⟨rfl, rfl, rfl, rfl, rfl⟩

end Upsbet
